import Mathlib

/-!
Verification development for `scripts/cfRegTest.py` (Cloudflare IP
performance tester).  The Python source is shallowly embedded below:
pure helpers become Lean functions, network / clock effects become
explicit oracle parameters (`ProbeEnv`), and Python exceptions become
`Except PyExc`.
-/

namespace CfRegTest

/-- Python `int()` applied to a rational: truncation toward zero. -/
def pyInt (q : ℚ) : Int := q.num.sign * (q.num.natAbs / q.den)

/-- Python `str.strip()`: drop leading and trailing whitespace. -/
def pyStrip (s : String) : String :=
  ⟨((s.data.dropWhile Char.isWhitespace).reverse.dropWhile Char.isWhitespace).reverse⟩

/-- Python `str.replace(" ", "_")`: every space becomes an underscore. -/
def replaceSpaceWithUnderscore (s : String) : String :=
  ⟨s.data.map (fun c => if c = ' ' then '_' else c)⟩

/-- Python `str.split(sep)` for a one-character separator, on char lists.
`splitOnChar sep []` is `[[]]`, matching `"".split(sep) == ['']`. -/
def splitOnChar (sep : Char) : List Char → List (List Char)
  | [] => [[]]
  | c :: cs =>
    let rest := splitOnChar sep cs
    if c = sep then [] :: rest
    else (c :: rest.headD []) :: rest.tail

/-- Numeric value of a decimal digit string. -/
def decimalValue (l : List Char) : Nat :=
  l.foldl (fun a c => a * 10 + (c.toNat - '0'.toNat)) 0

/-- One dotted-quad octet as accepted by Python `ipaddress`:
1–3 ASCII digits, no leading zero, value ≤ 255. -/
def validOctet (l : List Char) : Bool :=
  !l.isEmpty && l.length ≤ 3 && l.all Char.isDigit &&
    (l.headD '0' ≠ '0' || l.length = 1) && decimalValue l ≤ 255

/-- Syntactic IPv4 validity as checked by Python `ipaddress.IPv4Address`. -/
def validIPv4 (l : List Char) : Bool :=
  match splitOnChar '.' l with
  | [a, b, c, d] => validOctet a && validOctet b && validOctet c && validOctet d
  | _ => false

/-- ASCII hexadecimal digit. -/
def isHexChar (c : Char) : Bool :=
  c.isDigit || ('a' ≤ c && c ≤ 'f') || ('A' ≤ c && c ≤ 'F')

/-- One IPv6 hextet: 1–4 hex digits. -/
def validHextet (l : List Char) : Bool :=
  !l.isEmpty && l.length ≤ 4 && l.all isHexChar

/-- Core of the IPv6 grammar of Python `ipaddress.IPv6Address`, after the
trailing embedded IPv4 part (if any) has been replaced by two hextets.
`parts` is the result of splitting on `:`; at most one empty interior
part (the `::` gap) is allowed, a leading/trailing empty part is only
allowed as half of a leading/trailing `::`, and the explicit hextets
must number at most 7 when a gap is present, exactly 8 otherwise. -/
def validIPv6core (parts : List (List Char)) : Bool :=
  if parts.length > 9 then false
  else
    let interior := (parts.drop 1).dropLast
    if interior.countP (fun p => p.isEmpty) = 0 then
      parts.length = 8 && parts.all validHextet
    else if interior.countP (fun p => p.isEmpty) = 1 then
      let skipIdx := interior.findIdx (fun p => p.isEmpty) + 1
      let hi := parts.take skipIdx
      let lo := parts.drop (skipIdx + 1)
      let hiOk := if (hi.headD []).isEmpty then hi.length = 1 else hi.all validHextet
      let loOk := if (lo.getLastD []).isEmpty then lo.length = 1 else lo.all validHextet
      let hiCount := if (hi.headD []).isEmpty then 0 else hi.length
      let loCount := if (lo.getLastD []).isEmpty then 0 else lo.length
      hiOk && loOk && hiCount + loCount ≤ 7
    else false

/-- Syntactic IPv6 validity as checked by Python `ipaddress.IPv6Address`
(zone identifiers such as `%eth0` are not modelled). -/
def validIPv6 (l : List Char) : Bool :=
  let parts := splitOnChar ':' l
  if parts.length < 3 then false
  else
    let last := parts.getLastD []
    if last.contains '.' then
      validIPv4 last && validIPv6core (parts.dropLast ++ [['0'], ['0']])
    else
      validIPv6core parts

/-- `CloudflareIPTester.validate_ip` (source lines 145–158): true iff
`ipaddress.ip_address` accepts the string, i.e. it parses as IPv4 or IPv6. -/
def validate_ip (ip : String) : Bool :=
  validIPv4 ip.data || validIPv6 ip.data

/-- Rational multiplication, written through `mkRat` so that it is
definitionally reducible (the library `Rat.mul` is irreducible).
`ratMul_eq_mul` below shows it agrees with `*`. -/
def ratMul (a b : ℚ) : ℚ := mkRat (a.num * b.num) (a.den * b.den)

theorem ratMul_eq_mul (a b : ℚ) : ratMul a b = a * b :=
  (Rat.mul_eq_mkRat a b).symm

/-- Python exceptions raised by the embedded code, tagged by their type. -/
inductive PyExc where
  | fileNotFound (msg : String)
  | valueError (msg : String)
  | runtimeError (msg : String)
  | ioError (msg : String)
deriving DecidableEq, Repr

instance {ε α : Type} [DecidableEq ε] [DecidableEq α] : DecidableEq (Except ε α) :=
  fun x y =>
    match x, y with
    | Except.ok a, Except.ok b =>
      if h : a = b then isTrue (by rw [h]) else isFalse (fun hh => h (Except.ok.inj hh))
    | Except.error e, Except.error f =>
      if h : e = f then isTrue (by rw [h]) else isFalse (fun hh => h (Except.error.inj hh))
    | Except.ok _, Except.error _ => isFalse (fun hh => Except.noConfusion hh)
    | Except.error _, Except.ok _ => isFalse (fun hh => Except.noConfusion hh)

/-- The message carried by an exception (Python `str(e)`). -/
def PyExc.msg : PyExc → String
  | .fileNotFound m => m
  | .valueError m => m
  | .runtimeError m => m
  | .ioError m => m

/-- `CloudflareIPTester.read_ips` (source lines 121–143).  The file is an
oracle: `none` means `open` raises `FileNotFoundError`, `some lines` is its
line list.  The body keeps the stripped lines that are nonempty and valid
addresses; an empty result raises `ValueError`, and both the
`FileNotFoundError` handler and the catch-all handler re-raise as
`FileNotFoundError`. -/
def read_ips (file_path : String) (fileLines : Option (List String)) :
    Except PyExc (List String) :=
  let body : Except PyExc (List String) :=
    match fileLines with
    | none => Except.error (PyExc.fileNotFound "open failed")
    | some lines =>
      let ips := lines.filterMap (fun l =>
        let t := pyStrip l
        if t = "" then none
        else if validate_ip t then some t else none)
      if ips = [] then
        Except.error (PyExc.valueError "No valid IP addresses found in the file")
      else Except.ok ips
  match body with
  | Except.ok ips => Except.ok ips
  | Except.error (PyExc.fileNotFound _) =>
    Except.error (PyExc.fileNotFound ("IP file not found: " ++ file_path))
  | Except.error e =>
    Except.error (PyExc.fileNotFound ("Error reading IP file: " ++ e.msg))

/-- One row of the colo reference CSV as produced by `csv.DictReader`:
`row.get('colo')` and `row.get('region')` may each be absent. -/
structure ColoRow where
  colo : Option String
  region : Option String
deriving DecidableEq, Repr

/-- `CloudflareIPTester.get_region_from_colo` (source lines 204–215): first
row whose `colo` field equals the code exactly wins; its region (default
`"Unknown"` when the key is absent) has spaces replaced by underscores;
no matching row yields `"Unknown"`. -/
def get_region_from_colo (colo : String) (colo_data : List ColoRow) : String :=
  match colo_data.find? (fun row => row.colo = some colo) with
  | some row => replaceSpaceWithUnderscore (row.region.getD "Unknown")
  | none => "Unknown"

/-- Outcome of the `ping3.ping` call for one address: a round-trip time in
seconds, `None` (no response within the timeout), or a raised exception. -/
inductive PingProbe where
  | ok (rt : ℚ)
  | timeout
  | err (msg : String)
deriving DecidableEq, Repr

/-- `CloudflareIPTester.get_ping` (source lines 217–238).  `elapsed` is the
wall-clock seconds `time.time() - start_time` observed on the fallback
path.  Raises `RuntimeError` when `ping3` is unavailable; returns
`int(rt * 1000)` on a positive response; returns `int(elapsed * 1000)`
when the response is `None` or nonpositive; returns `-1` when `ping3.ping`
itself raised. -/
def get_ping (ping_available : Bool) (probe : PingProbe) (elapsed : ℚ) :
    Except PyExc Int :=
  if ping_available = false then
    Except.error (PyExc.runtimeError
      "Ping functionality unavailable. Install the ping3 library.")
  else
    match probe with
    | PingProbe.ok rt =>
      if 0 < rt then Except.ok (pyInt (ratMul rt 1000))
      else Except.ok (pyInt (ratMul elapsed 1000))
    | PingProbe.timeout => Except.ok (pyInt (ratMul elapsed 1000))
    | PingProbe.err _ => Except.ok (-1)

/-- Configuration values of `CloudflareIPTester.__init__` (source lines
66–86).  `max_ips` is `ℕ`, modelling the non-negative case. -/
structure Config where
  max_ips : ℕ
  max_ping : Int
  test_size : ℕ
  min_download_speed : ℚ
  min_upload_speed : ℚ
  regions : List String
  output_file : String
  ip_file : String

/-- Oracles for everything the run reads from the outside world: the
candidate file, the `random.shuffle` ordering, the `ping3` probe and its
wall clock, the colo CSV fetch, the per-address trace probe, and the
values returned by the two speed probes (whose wall-clock transfer
timings make them environment-determined; each returns `0.0` on
transport failure, which the oracle may also produce). -/
structure ProbeEnv where
  fileLines : Option (List String)
  shuffle : List String → List String
  ping_available : Bool
  ping_probe : String → PingProbe
  ping_elapsed : String → ℚ
  colo_data : List ColoRow
  colo_of : String → Option String
  download_speed : String → ℚ
  upload_speed : String → ℚ

/-- The comparison key of `ip_ping_results.sort(key=lambda x: x[1])`. -/
def pingLE (a b : String × Int) : Prop := a.2 ≤ b.2

instance : DecidableRel pingLE := fun a b => inferInstanceAs (Decidable (a.2 ≤ b.2))

instance : IsTotal (String × Int) pingLE := ⟨fun a b => Int.le_total a.2 b.2⟩

instance : IsTrans (String × Int) pingLE := ⟨fun _ _ _ h h2 => le_trans h h2⟩

/-- One iteration of the loop of `filter_ips_by_ping` (source lines
305–311): call `get_ping`; a raised exception is caught, logged and
skipped; a result is kept when `0 < ping_time ≤ max_ping`. -/
def ping_result (cfg : Config) (env : ProbeEnv) (ip : String) :
    Option (String × Int) :=
  match get_ping env.ping_available (env.ping_probe ip) (env.ping_elapsed ip) with
  | Except.error _ => none
  | Except.ok t => if 0 < t ∧ t ≤ cfg.max_ping then some (ip, t) else none

/-- The `ip_ping_results` list of `filter_ips_by_ping` before sorting. -/
def ping_passing (cfg : Config) (env : ProbeEnv) (ip_list : List String) :
    List (String × Int) :=
  ip_list.filterMap (ping_result cfg env)

/-- `CloudflareIPTester.filter_ips_by_ping` (source lines 297–315): collect
passing results, sort by ping time (`list.sort` is stable; modelled by the
stable insertion sort) and keep the first `max_ips`. -/
def filter_ips_by_ping (cfg : Config) (env : ProbeEnv) (ip_list : List String) :
    List (String × Int) :=
  (List.insertionSort pingLE (ping_passing cfg env ip_list)).take cfg.max_ips

/-- The final per-candidate record (source lines 41–60). -/
structure IPPerformanceMetrics where
  ip : String
  region : String
  ping : Int
  upload_speed : ℚ
  download_speed : ℚ
deriving DecidableEq, Repr

/-- The body of the per-candidate loop of `run_tests` (source lines
344–374): resolve the colo (skip when `None`), reject a region outside the
configured list, measure both speeds and reject when either threshold
fails, otherwise record the metrics. -/
def test_candidate (cfg : Config) (env : ProbeEnv) (p : String × Int) :
    Option IPPerformanceMetrics :=
  match env.colo_of p.1 with
  | none => none
  | some colo =>
    if get_region_from_colo colo env.colo_data ∉ cfg.regions then none
    else if env.download_speed p.1 < cfg.min_download_speed ∨
        env.upload_speed p.1 < cfg.min_upload_speed then none
    else some { ip := p.1, region := get_region_from_colo colo env.colo_data,
                ping := p.2, upload_speed := env.upload_speed p.1,
                download_speed := env.download_speed p.1 }

/-- `CloudflareIPTester.run_tests` (source lines 317–379): read and shuffle
the candidate list (any read failure re-raised as `ValueError`), filter by
ping (empty result is fatal), require a nonempty colo table, then run the
per-candidate loop. -/
def run_tests (cfg : Config) (env : ProbeEnv) :
    Except PyExc (List IPPerformanceMetrics) :=
  match read_ips cfg.ip_file env.fileLines with
  | Except.error e =>
    Except.error (PyExc.valueError ("Failed to read 'ip_list': " ++ e.msg))
  | Except.ok ips =>
    if filter_ips_by_ping cfg env (env.shuffle ips) = [] then
      Except.error (PyExc.runtimeError "No IPs passed the ping filter.")
    else if env.colo_data = [] then
      Except.error (PyExc.runtimeError
        "Critical error: Failed to fetch Cloudflare colo data.")
    else
      Except.ok ((filter_ips_by_ping cfg env (env.shuffle ips)).filterMap
        (test_candidate cfg env))

/-- One line of the output CSV, abstracting the string rendering: the
header row or the `to_csv_row` rendering of one metrics record. -/
inductive CsvRow where
  | header
  | data (m : IPPerformanceMetrics)
deriving DecidableEq, Repr

/-- Failure injection for `export_results`: no failure, a failure when
opening the output file, or a failure after `k` rows (header included)
were written. -/
inductive ExportFailure where
  | noFail
  | atOpen (msg : String)
  | atWrite (k : ℕ) (msg : String)
deriving DecidableEq, Repr

/-- The full row sequence `export_results` writes: header then one row per
record, in order (source lines 388–395). -/
def export_rows (results : List IPPerformanceMetrics) : List CsvRow :=
  CsvRow.header :: results.map CsvRow.data

/-- `CloudflareIPTester.export_results` (source lines 381–399): returns
the outcome (any failure is re-raised as `IOError`) together with the
output-file contents, `none` when the file was never created.  `open(_, 'w')`
truncates and the rows are written sequentially, so a failure after `k`
writes leaves the first `k` rows in the file. -/
def export_results (fail : ExportFailure) (results : List IPPerformanceMetrics) :
    Except PyExc Unit × Option (List CsvRow) :=
  match fail with
  | ExportFailure.noFail => (Except.ok (), some (export_rows results))
  | ExportFailure.atOpen m =>
    (Except.error (PyExc.ioError ("Critical error: Failed to export results: " ++ m)),
      none)
  | ExportFailure.atWrite k m =>
    (Except.error (PyExc.ioError ("Critical error: Failed to export results: " ++ m)),
      some ((export_rows results).take k))

/-- `main` (source lines 401–417): run the tests and export; a failing
`run_tests` propagates before `export_results` is ever called, so the
output file is then never touched.  Returns the overall outcome and the
final output-file contents. -/
def main (cfg : Config) (env : ProbeEnv) (fail : ExportFailure) :
    Except PyExc (List IPPerformanceMetrics) × Option (List CsvRow) :=
  match run_tests cfg env with
  | Except.error e => (Except.error e, none)
  | Except.ok results =>
    match export_results fail results with
    | (Except.ok _, f) => (Except.ok results, f)
    | (Except.error e, f) => (Except.error e, f)

/-! ### Concrete fixtures

A small fully concrete configuration and environment used to instantiate
the theorems below: two valid candidate addresses, both answering the
ping probe in 1/20 s (50 ms), served from a colo `LAX` mapped to region
`North America`, with both speed probes returning 10 Mbps. -/

/-- Demo configuration. -/
def cfgD : Config where
  max_ips := 10
  max_ping := 100
  test_size := 1024
  min_download_speed := 5
  min_upload_speed := 2
  regions := ["North_America"]
  output_file := "ip_performance.csv"
  ip_file := "ips.txt"

/-- Demo colo table row. -/
def rowD : ColoRow := { colo := some "LAX", region := some "North America" }

/-- Demo probe environment. -/
def envD : ProbeEnv where
  fileLines := some ["1.0.0.1", "1.0.0.2"]
  shuffle := fun l => l
  ping_available := true
  ping_probe := fun _ => PingProbe.ok (mkRat 1 20)
  ping_elapsed := fun _ => 2
  colo_data := [rowD]
  colo_of := fun _ => some "LAX"
  download_speed := fun _ => 10
  upload_speed := fun _ => 10

/-- The record `run_tests cfgD envD` produces for the first address. -/
def mD1 : IPPerformanceMetrics where
  ip := "1.0.0.1"
  region := "North_America"
  ping := 50
  upload_speed := 10
  download_speed := 10

/-- The record `run_tests cfgD envD` produces for the second address. -/
def mD2 : IPPerformanceMetrics := { mD1 with ip := "1.0.0.2" }

/-! ### Helper lemmas -/

/-- What membership in one loop result means: the pair carries the probed
address, its `get_ping` value, and that value passed the latency window. -/
theorem ping_result_eq_some {cfg : Config} {env : ProbeEnv} {ip : String}
    {p : String × Int} (h : ping_result cfg env ip = some p) :
    p.1 = ip ∧
      get_ping env.ping_available (env.ping_probe ip) (env.ping_elapsed ip) =
        Except.ok p.2 ∧
      0 < p.2 ∧ p.2 ≤ cfg.max_ping := by
  unfold ping_result at h
  split at h
  · exact absurd h (by simp)
  · next t hg =>
    split at h
    · next hc =>
      cases h
      exact ⟨rfl, hg, hc.1, hc.2⟩
    · exact absurd h (by simp)

/-- Membership in the pre-sort list `ping_passing`. -/
theorem mem_ping_passing {cfg : Config} {env : ProbeEnv} {l : List String}
    {p : String × Int} (h : p ∈ ping_passing cfg env l) :
    p.1 ∈ l ∧
      get_ping env.ping_available (env.ping_probe p.1) (env.ping_elapsed p.1) =
        Except.ok p.2 ∧
      0 < p.2 ∧ p.2 ≤ cfg.max_ping := by
  obtain ⟨a, hal, ha⟩ := List.mem_filterMap.mp h
  obtain ⟨h1, h2, h3, h4⟩ := ping_result_eq_some ha
  subst h1
  exact ⟨hal, h2, h3, h4⟩

/-- Membership in the ranked set implies membership in the pre-sort list. -/
theorem mem_filter_ips_by_ping {cfg : Config} {env : ProbeEnv} {l : List String}
    {p : String × Int} (h : p ∈ filter_ips_by_ping cfg env l) :
    p ∈ ping_passing cfg env l := by
  unfold filter_ips_by_ping at h
  exact ((List.perm_insertionSort pingLE _).mem_iff).mp (List.mem_of_mem_take h)

/-- Distinct addresses yield a duplicate-free pre-sort list. -/
theorem nodup_ping_passing {cfg : Config} {env : ProbeEnv} {l : List String}
    (h : l.Nodup) : (ping_passing cfg env l).Nodup := by
  refine List.Nodup.filterMap (fun a a' p hp hp' => ?_) h
  have h1 := (ping_result_eq_some hp).1
  have h2 := (ping_result_eq_some hp').1
  rw [← h1, h2]

/-- In a duplicate-free list, a two-element sublist whose second element
survives `take k` survives `take k` as a pair. -/
theorem pair_sublist_take {α : Type} {s : List α} (hnd : s.Nodup) {a b : α}
    (hab : List.Sublist [a, b] s) :
    ∀ {k : ℕ}, b ∈ s.take k → List.Sublist [a, b] (s.take k) := by
  induction s with
  | nil => cases hab
  | cons hd tl ih =>
    intro k hb
    cases k with
    | zero => simp at hb
    | succ k =>
      rw [List.take_succ_cons] at hb ⊢
      cases hab with
      | cons₂ _ h =>
        rcases List.mem_cons.mp hb with hbhd | hbtl
        · exact absurd (List.singleton_sublist.mp h)
            (by rw [hbhd] at *; exact (List.nodup_cons.mp hnd).1)
        · exact (List.singleton_sublist.mpr hbtl).cons₂ a
      | cons _ h =>
        rcases List.mem_cons.mp hb with hbhd | hbtl
        · have : b ∈ tl := h.subset (by simp)
          exact absurd this (by rw [hbhd] at *; exact (List.nodup_cons.mp hnd).1)
        · exact (ih (List.nodup_cons.mp hnd).2 h hbtl).cons hd

/-- What a recorded metrics value means: the record carries the candidate
pair and passed the region and both speed gates. -/
theorem test_candidate_eq_some {cfg : Config} {env : ProbeEnv}
    {p : String × Int} {m : IPPerformanceMetrics}
    (h : test_candidate cfg env p = some m) :
    m.ip = p.1 ∧ m.ping = p.2 ∧ m.region ∈ cfg.regions ∧
      cfg.min_download_speed ≤ m.download_speed ∧
      cfg.min_upload_speed ≤ m.upload_speed := by
  unfold test_candidate at h
  split at h
  · exact absurd h (by simp)
  · split at h
    · exact absurd h (by simp)
    · split at h
      · exact absurd h (by simp)
      · next hreg hspeed =>
        cases h
        rw [not_or] at hspeed
        exact ⟨rfl, rfl, not_not.mp hreg,
          not_lt.mp hspeed.1, not_lt.mp hspeed.2⟩

/-! ### Claims -/

/-- C1: every record in the output list of `run_tests` simultaneously has
ping in `(0, max_ping]`, a region in the configured region list, download
speed at least `min_download_speed` and upload speed at least
`min_upload_speed`. -/
theorem run_tests_accepted_invariants (cfg : Config) (env : ProbeEnv)
    (results : List IPPerformanceMetrics) (m : IPPerformanceMetrics)
    (hrun : run_tests cfg env = Except.ok results) (hm : m ∈ results) :
    0 < m.ping ∧ m.ping ≤ cfg.max_ping ∧ m.region ∈ cfg.regions ∧
      cfg.min_download_speed ≤ m.download_speed ∧
      cfg.min_upload_speed ≤ m.upload_speed := by
  unfold run_tests at hrun
  split at hrun
  · exact Except.noConfusion hrun
  · split at hrun
    · exact Except.noConfusion hrun
    · split at hrun
      · exact Except.noConfusion hrun
      · cases hrun
        obtain ⟨p, hp, ht⟩ := List.mem_filterMap.mp hm
        obtain ⟨-, -, hpos, hle⟩ := mem_ping_passing (mem_filter_ips_by_ping hp)
        obtain ⟨-, hping, hreg, hd, hu⟩ := test_candidate_eq_some ht
        exact ⟨hping ▸ hpos, hping ▸ hle, hreg, hd, hu⟩

/-- C1 witness: instantiated on the demo run, whose output is
`[mD1, mD2]`. -/
theorem run_tests_accepted_invariants_witness :
    0 < mD1.ping ∧ mD1.ping ≤ cfgD.max_ping ∧ mD1.region ∈ cfgD.regions ∧
      cfgD.min_download_speed ≤ mD1.download_speed ∧
      cfgD.min_upload_speed ≤ mD1.upload_speed :=
  run_tests_accepted_invariants cfgD envD [mD1, mD2] mD1 (by decide) (by decide)

/-- C5: the ranked set has size `min max_ips (number of passing
candidates)` and is sorted by ascending ping. -/
theorem filter_ips_by_ping_length_sorted (cfg : Config) (env : ProbeEnv)
    (l : List String) :
    (filter_ips_by_ping cfg env l).length =
      min cfg.max_ips (ping_passing cfg env l).length ∧
      List.Sorted pingLE (filter_ips_by_ping cfg env l) := by
  constructor
  · unfold filter_ips_by_ping
    rw [List.length_take, List.length_insertionSort]
  · exact List.Pairwise.sublist (List.take_sublist _ _)
      (List.sorted_insertionSort pingLE _)

/-- Probe environment for the C4 counterexample: the ping probe times out
and the wall clock then shows 0.1 s elapsed. -/
def envT : ProbeEnv :=
  { envD with ping_probe := fun _ => PingProbe.timeout,
              ping_elapsed := fun _ => mkRat 1 10 }

/-- C4 counterexample: a candidate whose probe timed out (`ping3` returned
`None`) is ranked: the wall-clock fallback converts 0.1 s elapsed into a
ping of 100 ms, which passes the `max_ping = 100` window. -/
theorem timeout_candidate_ranked :
    envT.ping_probe "1.0.0.1" = PingProbe.timeout ∧
      ("1.0.0.1", 100) ∈ filter_ips_by_ping cfgD envT ["1.0.0.1"] ∧
      (0 : Int) < 100 ∧ (100 : Int) ≤ cfgD.max_ping := by
  decide

/-- C4 amended: every entry of the ranked set has ping in
`(0, max_ping]`, and a candidate whose probe raised an exception is never
ranked (its sentinel `-1` fails the window); but a timed-out candidate can
be ranked through the wall-clock fallback. -/
theorem filter_ips_by_ping_window (cfg : Config) (env : ProbeEnv)
    (l : List String) :
    (∀ p ∈ filter_ips_by_ping cfg env l, 0 < p.2 ∧ p.2 ≤ cfg.max_ping) ∧
      (∀ ip msg, env.ping_probe ip = PingProbe.err msg →
        ∀ t, (ip, t) ∉ filter_ips_by_ping cfg env l) := by
  constructor
  · intro p hp
    obtain ⟨-, -, h3, h4⟩ := mem_ping_passing (mem_filter_ips_by_ping hp)
    exact ⟨h3, h4⟩
  · intro ip msg hprobe t hmem
    obtain ⟨-, hg, hpos, -⟩ := mem_ping_passing (mem_filter_ips_by_ping hmem)
    rw [hprobe] at hg
    unfold get_ping at hg
    split at hg
    · exact Except.noConfusion hg
    · cases hg
      exact absurd hpos (show ¬(0 : Int) < -1 by decide)

/-- C4 amended witness: on the demo run, the ranked entry
`("1.0.0.1", 50)` is inside the window, and no entry for an address whose
probe raised can appear. -/
theorem filter_ips_by_ping_window_witness :
    0 < (50 : Int) ∧ (50 : Int) ≤ cfgD.max_ping :=
  (filter_ips_by_ping_window cfgD envD ["1.0.0.1", "1.0.0.2"]).1
    ("1.0.0.1", 50) (by decide)

/-- The demo environment with the only difference being the hidden
`random.shuffle` ordering: here the shuffle reverses the candidate list. -/
def envRev : ProbeEnv := { envD with shuffle := List.reverse }

/-- C2 counterexample: `envD` and `envRev` agree on the candidate file and
on every probe oracle and differ only in the `random.shuffle` ordering
(which the code draws from an unseeded RNG), yet the two runs produce
different output lists: the two candidates tie at 50 ms, the sort is
stable, so the shuffled order decides the output order. -/
theorem run_tests_shuffle_dependent :
    envD.fileLines = envRev.fileLines ∧
      envD.ping_available = envRev.ping_available ∧
      envD.ping_probe = envRev.ping_probe ∧
      envD.ping_elapsed = envRev.ping_elapsed ∧
      envD.colo_data = envRev.colo_data ∧
      envD.colo_of = envRev.colo_of ∧
      envD.download_speed = envRev.download_speed ∧
      envD.upload_speed = envRev.upload_speed ∧
      run_tests cfgD envD = Except.ok [mD1, mD2] ∧
      run_tests cfgD envRev = Except.ok [mD2, mD1] ∧
      ([mD1, mD2] : List IPPerformanceMetrics) ≠ [mD2, mD1] :=
  ⟨rfl, rfl, rfl, rfl, rfl, rfl, rfl, rfl, by decide, by decide, by decide⟩

/-- C2 amended: the pipeline is deterministic as a function of its inputs,
its probe results AND the shuffle ordering: two environments that agree on
the candidate file, on every probe oracle and on the shuffle yield
identical outputs (order included). -/
theorem run_tests_deterministic (cfg : Config) (env₁ env₂ : ProbeEnv)
    (h1 : env₁.fileLines = env₂.fileLines)
    (h2 : env₁.shuffle = env₂.shuffle)
    (h3 : env₁.ping_available = env₂.ping_available)
    (h4 : env₁.ping_probe = env₂.ping_probe)
    (h5 : env₁.ping_elapsed = env₂.ping_elapsed)
    (h6 : env₁.colo_data = env₂.colo_data)
    (h7 : env₁.colo_of = env₂.colo_of)
    (h8 : env₁.download_speed = env₂.download_speed)
    (h9 : env₁.upload_speed = env₂.upload_speed) :
    run_tests cfg env₁ = run_tests cfg env₂ := by
  cases env₁
  cases env₂
  simp only at h1 h2 h3 h4 h5 h6 h7 h8 h9
  subst h1 h2 h3 h4 h5 h6 h7 h8 h9
  rfl

/-- C2 amended witness: two identical runs of the demo environment agree. -/
theorem run_tests_deterministic_witness :
    run_tests cfgD envD = run_tests cfgD envD :=
  run_tests_deterministic cfgD envD envD rfl rfl rfl rfl rfl rfl rfl rfl rfl

/-- C3 counterexample: a probe that timed out (ping3 returned `None` after
0.15 s of wall clock) makes `get_ping` return 150, an ordinary numeric
value, not the `-1` failure sentinel. -/
theorem get_ping_timeout_not_sentinel :
    get_ping true PingProbe.timeout (mkRat 3 20) = Except.ok 150 ∧
      (150 : Int) ≠ -1 := by
  decide

/-- C3 amended: with `ping3` available `get_ping` never raises; a probe
that raised a transport error yields the `-1` sentinel, but a probe that
got no response within the timeout (ping3 returned `None`) yields
`int(elapsed * 1000)`, the wall-clock elapsed time, not the sentinel. -/
theorem get_ping_failure_modes (msg : String) (e : ℚ) :
    get_ping true (PingProbe.err msg) e = Except.ok (-1) ∧
      get_ping true PingProbe.timeout e = Except.ok (pyInt (ratMul e 1000)) ∧
      ∀ probe : PingProbe, ∃ v : Int, get_ping true probe e = Except.ok v := by
  refine ⟨rfl, rfl, fun probe => ?_⟩
  cases probe with
  | ok rt =>
    by_cases h : 0 < rt
    · exact ⟨pyInt (ratMul rt 1000), by simp [get_ping, h]⟩
    · exact ⟨pyInt (ratMul e 1000), by simp [get_ping, h]⟩
  | timeout => exact ⟨pyInt (ratMul e 1000), rfl⟩
  | err m2 => exact ⟨-1, rfl⟩

/-- C6 counterexample: the file lists `1.0.0.1` before `1.0.0.2` and both
tie at 50 ms, yet the ranked set (and the final output) lists `1.0.0.2`
first, because `run_tests` shuffles before ranking and the tie is broken
by the shuffled order, not the file order. -/
theorem ties_not_broken_by_file_order :
    read_ips cfgD.ip_file envRev.fileLines =
        Except.ok ["1.0.0.1", "1.0.0.2"] ∧
      envRev.shuffle ["1.0.0.1", "1.0.0.2"] = ["1.0.0.2", "1.0.0.1"] ∧
      filter_ips_by_ping cfgD envRev ["1.0.0.2", "1.0.0.1"] =
        [("1.0.0.2", 50), ("1.0.0.1", 50)] ∧
      run_tests cfgD envRev = Except.ok [mD2, mD1] ∧
      mD2.ping = mD1.ping := by
  decide

/-- C6 amended: within `filter_ips_by_ping` the sort is stable: two
equal-ping entries of the pre-sort list (whose order is the order of the
input list handed to `filter_ips_by_ping`, i.e. the shuffled order) keep
that relative order in the ranked set whenever the later one is ranked. -/
theorem filter_ips_by_ping_stable_ties (cfg : Config) (env : ProbeEnv)
    (l : List String) (x y : String) (t : Int) (hnd : l.Nodup)
    (hpair : List.Sublist [(x, t), (y, t)] (ping_passing cfg env l))
    (hy : (y, t) ∈ filter_ips_by_ping cfg env l) :
    List.Sublist [(x, t), (y, t)] (filter_ips_by_ping cfg env l) := by
  have hnodup : (List.insertionSort pingLE (ping_passing cfg env l)).Nodup :=
    ((List.perm_insertionSort pingLE _).nodup_iff).mpr (nodup_ping_passing hnd)
  have hsorted : List.Sublist [(x, t), (y, t)]
      (List.insertionSort pingLE (ping_passing cfg env l)) :=
    List.pair_sublist_insertionSort (le_refl t) hpair
  unfold filter_ips_by_ping at hy ⊢
  exact pair_sublist_take hnodup hsorted hy

/-- C6 amended witness: on the demo run both ranked entries tie at 50 ms
and keep the relative order of the list handed to the filter. -/
theorem filter_ips_by_ping_stable_ties_witness :
    List.Sublist [("1.0.0.1", (50 : Int)), ("1.0.0.2", 50)]
      (filter_ips_by_ping cfgD envD ["1.0.0.1", "1.0.0.2"]) :=
  filter_ips_by_ping_stable_ties cfgD envD ["1.0.0.1", "1.0.0.2"]
    "1.0.0.1" "1.0.0.2" 50 (by decide) (by decide) (by decide)

/-- The demo environment on a host without the `ping3` library. -/
def envNoPing : ProbeEnv := { envD with ping_available := false }

/-- C7 counterexample: with `ping3` absent the run does not abort with the
capability error: `get_ping` raises it per candidate, `filter_ips_by_ping`
catches it per candidate and continues, and the run finally aborts with
the unrelated error `No IPs passed the ping filter.`. -/
theorem ping_unavailable_not_fatal_at_start :
    get_ping envNoPing.ping_available (envNoPing.ping_probe "1.0.0.1")
        (envNoPing.ping_elapsed "1.0.0.1") =
      Except.error (PyExc.runtimeError
        "Ping functionality unavailable. Install the ping3 library.") ∧
      filter_ips_by_ping cfgD envNoPing ["1.0.0.1", "1.0.0.2"] = [] ∧
      run_tests cfgD envNoPing =
        Except.error (PyExc.runtimeError "No IPs passed the ping filter.") ∧
      PyExc.runtimeError "No IPs passed the ping filter." ≠
        PyExc.runtimeError
          "Ping functionality unavailable. Install the ping3 library." := by
  decide

/-- C7 amended: when `ping3` is unavailable the capability error is raised
by `get_ping` on every candidate, swallowed per candidate by
`filter_ips_by_ping` (which then returns the empty ranked set), and a run
whose candidate file reads successfully aborts with
`No IPs passed the ping filter.` instead of the capability error. -/
theorem ping_unavailable_behavior (cfg : Config) (env : ProbeEnv)
    (l : List String) (hav : env.ping_available = false) :
    (∀ ip : String,
        get_ping env.ping_available (env.ping_probe ip) (env.ping_elapsed ip) =
          Except.error (PyExc.runtimeError
            "Ping functionality unavailable. Install the ping3 library.")) ∧
      filter_ips_by_ping cfg env l = [] ∧
      (∀ ips : List String,
        read_ips cfg.ip_file env.fileLines = Except.ok ips →
        run_tests cfg env =
          Except.error (PyExc.runtimeError "No IPs passed the ping filter.")) := by
  have hfilter : ∀ l' : List String, filter_ips_by_ping cfg env l' = [] := by
    intro l'
    unfold filter_ips_by_ping ping_passing
    rw [List.filterMap_eq_nil_iff.mpr (fun a _ => by simp [ping_result, get_ping, hav])]
    simp
  refine ⟨fun ip => by simp [get_ping, hav], hfilter l, fun ips hread => ?_⟩
  unfold run_tests
  rw [hread]
  simp [hfilter]

/-- C7 amended witness: instantiated on the demo environment without
`ping3`. -/
theorem ping_unavailable_behavior_witness :
    get_ping envNoPing.ping_available (envNoPing.ping_probe "1.0.0.2")
        (envNoPing.ping_elapsed "1.0.0.2") =
      Except.error (PyExc.runtimeError
        "Ping functionality unavailable. Install the ping3 library.") ∧
      filter_ips_by_ping cfgD envNoPing ["1.0.0.2"] = [] ∧
      run_tests cfgD envNoPing =
        Except.error (PyExc.runtimeError "No IPs passed the ping filter.") :=
  ⟨(ping_unavailable_behavior cfgD envNoPing ["1.0.0.2"] rfl).1 "1.0.0.2",
   (ping_unavailable_behavior cfgD envNoPing ["1.0.0.2"] rfl).2.1,
   (ping_unavailable_behavior cfgD envNoPing ["1.0.0.2"] rfl).2.2
     ["1.0.0.1", "1.0.0.2"] (by decide)⟩

/-- C8: the colo lookup matches the code exactly and case-sensitively
(the first matching row wins), returns `"Unknown"` when no row matches,
and the returned region never contains a space (spaces are replaced by
underscores). -/
theorem get_region_from_colo_spec (colo : String) (colo_data : List ColoRow) :
    ((∀ row ∈ colo_data, row.colo ≠ some colo) →
        get_region_from_colo colo colo_data = "Unknown") ∧
      (∀ pre row post, colo_data = pre ++ row :: post →
        (∀ r ∈ pre, r.colo ≠ some colo) → row.colo = some colo →
        get_region_from_colo colo colo_data =
          replaceSpaceWithUnderscore (row.region.getD "Unknown")) ∧
      ' ' ∉ (get_region_from_colo colo colo_data).data := by
  refine ⟨?_, ?_, ?_⟩
  · intro hnone
    unfold get_region_from_colo
    rw [List.find?_eq_none.mpr (fun x hx => by simpa using hnone x hx)]
  · intro pre row post hdata hpre hrow
    subst hdata
    unfold get_region_from_colo
    rw [List.find?_append, List.find?_eq_none.mpr (fun x hx => by simpa using hpre x hx),
      List.find?_cons_of_pos _ (by simpa using hrow)]
    rfl
  · unfold get_region_from_colo
    rcases hf : colo_data.find? (fun row => row.colo = some colo) with _ | row
    · rw [hf]
      decide
    · rw [hf]
      intro hmem
      obtain ⟨c, -, hc⟩ := List.mem_map.mp hmem
      by_cases h : c = ' '
      · rw [if_pos h] at hc
        exact absurd hc (by decide)
      · rw [if_neg h] at hc
        exact h hc

/-- C8 witness: on the demo table, `LAX` resolves to `North_America`
(space replaced) and a case-mismatched code falls back to `Unknown`. -/
theorem get_region_from_colo_spec_witness :
    get_region_from_colo "LAX" [rowD] = "North_America" ∧
      get_region_from_colo "lax" [rowD] = "Unknown" :=
  ⟨((get_region_from_colo_spec "LAX" [rowD]).2.1 [] rowD [] rfl
      (by simp) rfl).trans (by decide),
   (get_region_from_colo_spec "lax" [rowD]).1 (by decide)⟩

/-- C9 counterexample: on the demo run (two result rows), a failure after
two writes leaves the output file holding the header and the first data
row only: export failed, yet the file holds a nonempty strict subset of
the result rows — export is not all-or-nothing. -/
theorem export_partial_file_on_failure :
    (main cfgD envD (ExportFailure.atWrite 2 "disk full")).1 =
        Except.error (PyExc.ioError
          "Critical error: Failed to export results: disk full") ∧
      (main cfgD envD (ExportFailure.atWrite 2 "disk full")).2 =
        some [CsvRow.header, CsvRow.data mD1] ∧
      (main cfgD envD ExportFailure.noFail).2 =
        some [CsvRow.header, CsvRow.data mD1, CsvRow.data mD2] ∧
      some [CsvRow.header, CsvRow.data mD1] ≠ (none : Option (List CsvRow)) ∧
      CsvRow.data mD2 ∉ [CsvRow.header, CsvRow.data mD1] := by
  decide

/-- C9 amended: when `run_tests` fails the output file is never written
(confirmed); but export is not all-or-nothing: a failure after `k` row
writes leaves the file holding the first `k` rows of the output while the
run raises the export `IOError`. -/
theorem main_output_file (cfg : Config) (env : ProbeEnv) (fail : ExportFailure) :
    (∀ e : PyExc, run_tests cfg env = Except.error e →
        (main cfg env fail).2 = none) ∧
      (∀ (results : List IPPerformanceMetrics) (k : ℕ) (msg : String),
        run_tests cfg env = Except.ok results →
        fail = ExportFailure.atWrite k msg →
        (main cfg env fail).1 = Except.error (PyExc.ioError
            ("Critical error: Failed to export results: " ++ msg)) ∧
          (main cfg env fail).2 = some ((export_rows results).take k)) := by
  constructor
  · intro e he
    unfold main
    rw [he]
  · intro results k msg hok hfail
    subst hfail
    unfold main
    rw [hok]
    exact ⟨rfl, rfl⟩

/-- C9 amended witness: a failing demo run writes no file; the demo run
with a write failure after two rows leaves exactly those two rows. -/
theorem main_output_file_witness :
    (main cfgD { envD with fileLines := none } ExportFailure.noFail).2 = none ∧
      (main cfgD envD (ExportFailure.atWrite 2 "disk full")).1 =
        Except.error (PyExc.ioError
          "Critical error: Failed to export results: disk full") ∧
      (main cfgD envD (ExportFailure.atWrite 2 "disk full")).2 =
        some ((export_rows [mD1, mD2]).take 2) :=
  ⟨(main_output_file cfgD { envD with fileLines := none } ExportFailure.noFail).1
      (PyExc.valueError "Failed to read 'ip_list': IP file not found: ips.txt")
      (by decide),
   ((main_output_file cfgD envD (ExportFailure.atWrite 2 "disk full")).2
      [mD1, mD2] 2 "disk full" (by decide) rfl).1,
   ((main_output_file cfgD envD (ExportFailure.atWrite 2 "disk full")).2
      [mD1, mD2] 2 "disk full" (by decide) rfl).2⟩

/-- C10: a readable candidate file with zero syntactically valid addresses
makes `read_ips` raise `FileNotFoundError` (the internal `ValueError` is
re-wrapped by the catch-all handler), the same exception type as a missing
file. -/
theorem read_ips_no_valid_wraps_as_file_not_found (path : String)
    (lines : List String)
    (h : ∀ l ∈ lines, pyStrip l = "" ∨ validate_ip (pyStrip l) = false) :
    read_ips path (some lines) = Except.error (PyExc.fileNotFound
        "Error reading IP file: No valid IP addresses found in the file") ∧
      read_ips path none =
        Except.error (PyExc.fileNotFound ("IP file not found: " ++ path)) := by
  refine ⟨?_, rfl⟩
  have hnil : List.filterMap
      (fun l =>
        let t := pyStrip l
        if t = "" then none else if validate_ip t then some t else none)
      lines = [] := by
    rw [List.filterMap_eq_nil_iff]
    intro a ha
    rcases h a ha with h1 | h1
    · simp [h1]
    · by_cases h2 : pyStrip a = ""
      · simp [h2]
      · simp [h2, h1]
  simp [read_ips, hnil]
  rfl

/-- C10 witness: a file holding one invalid address and one blank line. -/
theorem read_ips_no_valid_witness :
    read_ips "ips.txt" (some ["bad-ip", "  "]) =
      Except.error (PyExc.fileNotFound
        "Error reading IP file: No valid IP addresses found in the file") ∧
      read_ips "ips.txt" none =
        Except.error (PyExc.fileNotFound "IP file not found: ips.txt") :=
  read_ips_no_valid_wraps_as_file_not_found "ips.txt" ["bad-ip", "  "] (by decide)

end CfRegTest
